import Mathlib

/-!
Shallow embedding of the Debian-Tor-Site-Engine scripts
(`setup_darkweb_server.py` and `site-deployment/update_flask_site.py`):
the guarded file mutator, the privileged command runner, the confirmation
gate, the resource poller, and the orchestrator control flow, together
with theorems settling the specification claims about them.

Python string primitives are modelled by structural recursion over the
character list of a `String`, so that every definition evaluates inside
the kernel.
-/

/-! ## Python string primitives -/

/-- Helper for `pyStrip`: drop leading whitespace characters. -/
def dropWhileWs : List Char → List Char
  | [] => []
  | c :: cs => if c.isWhitespace then dropWhileWs cs else c :: cs

/-- Python's `str.strip()` (for the ASCII whitespace the scripts
encounter): remove leading and trailing whitespace. -/
def pyStrip (s : String) : String :=
  ⟨(dropWhileWs ((dropWhileWs s.toList).reverse)).reverse⟩

/-- Python's `str.lower()` (ASCII case folding, which is all the
scripts' token comparisons need). -/
def pyLower (s : String) : String :=
  ⟨s.toList.map Char.toLower⟩

/-- Helper for `pyContains`: does `pat` occur as a contiguous run in the
character list? -/
def containsChars (pat : List Char) : List Char → Bool
  | [] => pat.isPrefixOf ([] : List Char)
  | c :: cs => pat.isPrefixOf (c :: cs) || containsChars pat cs

/-- Python's substring test `pat in s` (used only with nonempty
patterns). -/
def pyContains (s pat : String) : Bool :=
  containsChars pat.toList s.toList

/-- Helper for `beforeReturn`: the characters strictly before the first
occurrence of `pat` (the whole list if `pat` never occurs). -/
def beforeFirstChars (pat : List Char) : List Char → List Char
  | [] => []
  | c :: cs => if pat.isPrefixOf (c :: cs) then [] else c :: beforeFirstChars pat cs

/-- Helper for `pySplitlines`, accumulating the current line reversed. -/
def splitLinesAux (acc : List Char) : List Char → List String
  | [] => if acc.isEmpty then [] else [⟨acc.reverse⟩]
  | c :: cs =>
      if c == '\n' then String.mk acc.reverse :: splitLinesAux [] cs
      else splitLinesAux (c :: acc) cs

/-- Python's `str.splitlines()` for LF-separated text (the only line
separator these scripts ever read or write). -/
def pySplitlines (s : String) : List String := splitLinesAux [] s.toList

/-- Python's `"\n".join(lines)`. -/
def joinWithNewline : List String → String
  | [] => ""
  | [l] => l
  | l :: ls => l ++ "\n" ++ joinWithNewline ls

/-! ## Targeted patch (`edit_only_landing_content`, update_flask_site.py) -/

/-- The match condition of `edit_only_landing_content`'s scan loop:
`"return " in line and '"' in line and "," in line`. -/
def matchesPatchLine (line : String) : Bool :=
  pyContains line "return " && pyContains line "\"" && pyContains line ","

/-- `line.split('return')[0]`: the text of the line before the first
occurrence of `return`. -/
def beforeReturn (line : String) : String :=
  ⟨beforeFirstChars "return".toList line.toList⟩

/-- The replacement line the loop builds for a matching line: the text
before the first `return`, then `return `, then the quoted operator
message, then the literal status `200`. -/
def patchLine (msg line : String) : String :=
  beforeReturn line ++ "return " ++ "\"" ++ msg ++ "\", 200"

/-- One pass of `edit_only_landing_content`'s loop over all lines:
every matching line is rewritten with `patchLine`, all others kept. -/
def patchedLines (msg : String) (lines : List String) : List String :=
  lines.map fun l => if matchesPatchLine l then patchLine msg l else l

/-- Outcome classification of `edit_only_landing_content`. -/
inductive EditResult where
  | fileNotFound
  | emptyMessage
  | updated
  | noMatch
deriving DecidableEq

/-- `edit_only_landing_content(app_path)` of `update_flask_site.py`.
`fileContent` is the target file's content (`none` when `app_path` does
not exist); `rawMsg` is the operator's console answer, stripped by the
code before use.  The first result component is the file content after
the call — the file is written only when some line matched, as
`"\n".join(updated_lines) + "\n"`; the second is the reported
outcome. -/
def edit_only_landing_content (fileContent : Option String) (rawMsg : String) :
    Option String × EditResult :=
  match fileContent with
  | none => (none, EditResult.fileNotFound)
  | some content =>
    if pyStrip rawMsg = "" then (some content, EditResult.emptyMessage)
    else
      let lines := pySplitlines content
      if lines.any matchesPatchLine then
        (some (joinWithNewline (patchedLines (pyStrip rawMsg) lines) ++ "\n"),
         EditResult.updated)
      else (some content, EditResult.noMatch)

/-! ## Full replacement (`replace_entire_file`, update_flask_site.py) -/

/-- The operator's source choice in `replace_entire_file`: a path to a
local file (whose content is `none` when no file exists there), or the
interactive multi-line capture. -/
inductive ReplaceChoice where
  | fromPath (sourceContent : Option String)
  | manual (inputLines : List String)

/-- The manual capture loop of `replace_entire_file`: lines are
accumulated until a blank line arrives after at least one captured line
(end of input also terminates the capture). -/
def collectManual (acc : List String) : List String → List String
  | [] => acc
  | l :: rest =>
      if pyStrip l = "" && !acc.isEmpty then acc
      else collectManual (acc ++ [l]) rest

/-- The new content `replace_entire_file` computes for each choice:
the source file's exact text for a path (absent when the file does not
exist), or `"\n".join(lines).strip()` for manual capture. -/
def contentOfChoice : ReplaceChoice → Option String
  | ReplaceChoice.fromPath c => c
  | ReplaceChoice.manual ins => some (pyStrip (joinWithNewline (collectManual [] ins)))

/-- The two file slots `replace_entire_file` touches: the target
`app.py` path and its sibling backup path `app_path.with_suffix(".bak")`. -/
structure MutState where
  target : Option String
  backup : Option String
deriving DecidableEq

/-- Outcome classification of `replace_entire_file`. -/
inductive ReplaceOutcome where
  | notFound
  | replaced
deriving DecidableEq

/-- `replace_entire_file(app_path)` of `update_flask_site.py`: resolve
the new content (aborting with a not-found report when the operator's
source path has no file); then, if the target exists, rename it onto the
backup path (`Path.replace` overwrites any previous backup); finally
write the new content to the target. -/
def replace_entire_file (choice : ReplaceChoice) (st : MutState) :
    MutState × ReplaceOutcome :=
  match contentOfChoice choice with
  | none => (st, ReplaceOutcome.notFound)
  | some newContent =>
      let backed : MutState :=
        match st.target with
        | some old => { target := none, backup := some old }
        | none => st
      ({ backed with target := some newContent }, ReplaceOutcome.replaced)

/-- Index of the last `'.'` in a file name's characters, if any. -/
def lastDotIdx (name : List Char) : Option Nat :=
  match name.reverse.findIdx? (· == '.') with
  | some j => some (name.length - 1 - j)
  | none => none

/-- `pathlib.Path.with_suffix`: replace the name's final extension with
`suffix`, or append `suffix` when the name has no extension (a leading
or trailing dot does not count as an extension). -/
def pyWithSuffix (name : String) (suffix : String) : String :=
  match lastDotIdx name.toList with
  | some k =>
      if 0 < k ∧ k + 1 < name.length then ⟨name.toList.take k⟩ ++ suffix
      else name ++ suffix
  | none => name ++ suffix

/-- The backup path `replace_entire_file` computes:
`app_path.with_suffix(".bak")`. -/
def backupPathName (targetName : String) : String :=
  pyWithSuffix targetName ".bak"

/-! ## Confirmation gate (`ask_user`, both scripts) -/

/-- The token classification inside `ask_user`'s loop body:
`choice = input(...).strip().lower()`, then membership in
`["y", "yes"]` or `["n", "no"]`. -/
def parseYesNo (s : String) : Option Bool :=
  let choice := pyLower (pyStrip s)
  if choice = "y" ∨ choice = "yes" then some true
  else if choice = "n" ∨ choice = "no" then some false
  else none

/-- `ask_user(question)` of both scripts, run against a stream of
console lines: loop until a line parses as yes or no, re-prompting on
anything else; `none` models exhausting the stream (end of input). -/
def ask_user : List String → Option Bool
  | [] => none
  | s :: rest =>
      match parseYesNo s with
      | some b => some b
      | none => ask_user rest

/-! ## Command runner (`run_command`, both scripts) -/

/-- `run_command(command, exit_on_fail)`: given the shell command's exit
status and captured stdout, a zero status returns the stripped stdout;
a non-zero status exits the whole process with code 1 when
`exit_on_fail` is true, and returns `None` (modelled `Except.ok none`)
otherwise.  `Except.error c` models `sys.exit(c)`. -/
def run_command (exitStatus : Nat) (stdoutText : String) (exit_on_fail : Bool) :
    Except Nat (Option String) :=
  if exitStatus = 0 then Except.ok (some (pyStrip stdoutText))
  else if exit_on_fail then Except.error 1
  else Except.ok none

/-- The host a run of `setup_darkweb_server.py` acts on: every shell
command's exit status and stdout, the SELinux detection inputs, and the
hidden-service hostname file (whether it exists after `t` seconds of
waiting, and its content). -/
structure HostEnv where
  exitStatus : String → Nat
  stdoutOf : String → String
  selinuxConfigExists : Bool
  setenforceFound : Bool
  hostnameAppears : Nat → Bool
  hostnameContent : String

/-- `run_command` dispatched against the host environment. -/
def runCmd (env : HostEnv) (cmd : String) (exit_on_fail : Bool) :
    Except Nat (Option String) :=
  run_command (env.exitStatus cmd) (env.stdoutOf cmd) exit_on_fail

/-- Straight-line sequencing of the scripts: run the first action; a
`sys.exit` (error) propagates, otherwise continue with the rest. -/
def andThenE {α β : Type} (x : Except Nat α) (k : Except Nat β) : Except Nat β :=
  match x with
  | Except.error c => Except.error c
  | Except.ok _ => k

/-- A sequence of best-effort commands (`exit_on_fail=False`). -/
def runSoftSeq (env : HostEnv) : List String → Except Nat Unit
  | [] => Except.ok ()
  | c :: cs => andThenE (runCmd env c false) (runSoftSeq env cs)

/-- A sequence of fatal commands (`exit_on_fail=True`, the default). -/
def runFatalSeq (env : HostEnv) : List String → Except Nat Unit
  | [] => Except.ok ()
  | c :: cs => andThenE (runCmd env c true) (runFatalSeq env cs)

/-! ## Resource poller (hostname wait loop in `enable_tor_single_instance`) -/

/-- Result of the hostname wait loop: the trimmed file content together
with the elapsed seconds at discovery, or a timeout with the elapsed
seconds at loop exit. -/
inductive PollResult where
  | found (value : String) (elapsed : Nat)
  | timedOut (elapsed : Nat)
deriving DecidableEq

/-- The wait loop of `enable_tor_single_instance`:
`while elapsed < max_wait` (60), check the hostname file, and on
failure sleep 5 seconds and add 5 to `elapsed`.  On success the file's
stripped content is returned. -/
def hostnameWaitAux (fileAt : Nat → Bool) (content : String) (elapsed : Nat) :
    PollResult :=
  if h : elapsed < 60 then
    if fileAt elapsed then PollResult.found (pyStrip content) elapsed
    else hostnameWaitAux fileAt content (elapsed + 5)
  else PollResult.timedOut elapsed
termination_by 60 - elapsed
decreasing_by omega

/-- The wait loop started at `elapsed = 0`. -/
def hostnameWait (fileAt : Nat → Bool) (content : String) : PollResult :=
  hostnameWaitAux fileAt content 0

/-! ## Orchestrator steps (`setup_darkweb_server.py`) -/

/-- `purge_old_tor()`: six best-effort cleanup commands. -/
def purge_old_tor (env : HostEnv) : Except Nat Unit :=
  runSoftSeq env
    ["systemctl disable tor@default --now",
     "systemctl disable tor --now",
     "rm -rf /etc/tor/instances",
     "apt-get purge -y tor",
     "rm -f /etc/tor/torrc /etc/tor/torrc.*",
     "rm -rf /var/lib/tor/*"]

/-- `fix_time()`: three best-effort time-sync commands (the captured
ntpdate output is only logged). -/
def fix_time (env : HostEnv) : Except Nat Unit :=
  runSoftSeq env
    ["apt-get update && apt-get install -y ntpdate",
     "ntpdate -u pool.ntp.org",
     "timedatectl set-ntp true"]

/-- `detect_selinux()`: the SELinux config file exists and `which
setenforce` reports a path. -/
def detect_selinux (env : HostEnv) : Bool :=
  env.selinuxConfigExists && env.setenforceFound

/-- `disable_selinux_if_present()`: two best-effort commands when
SELinux is detected, otherwise nothing. -/
def disable_selinux_if_present (env : HostEnv) : Except Nat Unit :=
  if detect_selinux env then
    runSoftSeq env
      ["setenforce 0",
       "sed -i 's/^SELINUX=.*/SELINUX=disabled/' /etc/selinux/config"]
  else Except.ok ()

/-- The package installation command of `install_tor_and_security()`. -/
def installPackagesCmd : String :=
  "apt-get update && apt-get install -y tor ufw fail2ban git build-essential openssl"

/-- `install_tor_and_security()`: one fatal installation command. -/
def install_tor_and_security (env : HostEnv) : Except Nat Unit :=
  runFatalSeq env [installPackagesCmd]

/-- `write_minimal_torrc()`: a best-effort removal of the old torrc;
the subsequent `Path.write_text` of the fixed template is modelled as an
infallible filesystem write. -/
def write_minimal_torrc (env : HostEnv) : Except Nat Unit :=
  runSoftSeq env ["rm -f /etc/tor/torrc"]

/-- `enable_tor_single_instance()`: two fatal systemctl commands, a
best-effort log-directory command, then the hostname wait loop.  A found
hostname is returned; the timeout path logs and calls `sys.exit(1)`. -/
def enable_tor_single_instance (env : HostEnv) : Except Nat String :=
  andThenE (runCmd env "systemctl enable tor" true)
  (andThenE (runCmd env "systemctl restart tor" true)
  (andThenE (runCmd env "mkdir -p /var/log/tor && chmod 755 /var/log/tor" false)
    (match hostnameWait env.hostnameAppears env.hostnameContent with
     | PollResult.found v _ => Except.ok v
     | PollResult.timedOut _ => Except.error 1)))

/-- `secure_server()`: nine fatal firewall, fail2ban and SSH commands. -/
def secure_server (env : HostEnv) : Except Nat Unit :=
  runFatalSeq env
    ["ufw default allow outgoing",
     "ufw default deny incoming",
     "ufw allow 22/tcp",
     "ufw allow 9050",
     "ufw allow 80",
     "ufw --force enable",
     "systemctl enable fail2ban && systemctl start fail2ban",
     "sed -i 's/^#\\?PasswordAuthentication.*/PasswordAuthentication yes/' /etc/ssh/sshd_config",
     "systemctl restart ssh"]

/-- The seven confirmation answers consumed by `main()`, in prompt
order. -/
structure MainAnswers where
  purgeOld : Bool
  syncTime : Bool
  selinux : Bool
  installPkgs : Bool
  writeTorrc : Bool
  startTor : Bool
  secure : Bool
deriving DecidableEq

/-- A run in which the operator declines every optional step. -/
def allDeclined : MainAnswers :=
  { purgeOld := false, syncTime := false, selinux := false,
    installPkgs := false, writeTorrc := false, startTor := false,
    secure := false }

/-- `main()` of `setup_darkweb_server.py`: `check_root` (exit 1 unless
effective uid 0), then the seven gated steps in order, then the summary.
`Except.ok a` models the process finishing with exit code 0 and `a` as
the onion address printed in the summary (`"UNAVAILABLE"` is the
placeholder used when the Tor start step was declined); `Except.error c`
models `sys.exit(c)`. -/
def mainWizard (env : HostEnv) (isRoot : Bool) (a : MainAnswers) : Except Nat String :=
  if isRoot = false then Except.error 1
  else
    andThenE (if a.purgeOld then purge_old_tor env else Except.ok ())
    (andThenE (if a.syncTime then fix_time env else Except.ok ())
    (andThenE (if a.selinux then disable_selinux_if_present env else Except.ok ())
    (andThenE (if a.installPkgs then install_tor_and_security env else Except.ok ())
    (andThenE (if a.writeTorrc then write_minimal_torrc env else Except.ok ())
    (match (if a.startTor then enable_tor_single_instance env
            else Except.ok "UNAVAILABLE") with
     | Except.error c => Except.error c
     | Except.ok onion =>
         andThenE (if a.secure then secure_server env else Except.ok ())
           (Except.ok onion))))))

/-! ## Concrete environments for witnesses -/

/-- A host on which every command succeeds with empty output and the
hostname file never appears. -/
def envNoFile : HostEnv :=
  { exitStatus := fun _ => 0, stdoutOf := fun _ => "",
    selinuxConfigExists := false, setenforceFound := false,
    hostnameAppears := fun _ => false, hostnameContent := "" }

/-- A host on which every command succeeds and the hostname file exists
from the start. -/
def envFileNow : HostEnv :=
  { exitStatus := fun _ => 0, stdoutOf := fun _ => "",
    selinuxConfigExists := false, setenforceFound := false,
    hostnameAppears := fun _ => true, hostnameContent := "abcdef.onion\n" }

/-- A host on which every command fails with exit status 1. -/
def envAllFail : HostEnv :=
  { exitStatus := fun _ => 1, stdoutOf := fun _ => "",
    selinuxConfigExists := false, setenforceFound := false,
    hostnameAppears := fun _ => false, hostnameContent := "" }

/-- Answers accepting only the Tor start step. -/
def answersTorOnly : MainAnswers :=
  { allDeclined with startTor := true }

/-- Answers accepting only the package installation step. -/
def answersInstallOnly : MainAnswers :=
  { allDeclined with installPkgs := true }

/-! ## Spec of the amended targeted-patch claim -/

/-- What the targeted patch actually guarantees for a nonempty stripped
message: when some line matches, the file is rewritten as the joined
patched lines plus a newline; the patched list has the same length; a
non-matching line is passed through unchanged at its index; EVERY
matching line (not only the first) is rewritten to the text before its
first `return` followed by `return "<message>", 200` — the numeric
suffix is normalized to 200, not preserved; and the spec's example
rewrites as stated. -/
def EditPatchSpec (content msg : String) : Prop :=
  ((pySplitlines content).any matchesPatchLine = true →
      edit_only_landing_content (some content) msg
        = (some (joinWithNewline
            (patchedLines (pyStrip msg) (pySplitlines content)) ++ "\n"),
           EditResult.updated))
  ∧ (patchedLines (pyStrip msg) (pySplitlines content)).length
      = (pySplitlines content).length
  ∧ (∀ i, i < (pySplitlines content).length →
       matchesPatchLine ((pySplitlines content).getD i "") = false →
       (patchedLines (pyStrip msg) (pySplitlines content)).getD i ""
         = (pySplitlines content).getD i "")
  ∧ (∀ i, i < (pySplitlines content).length →
       matchesPatchLine ((pySplitlines content).getD i "") = true →
       (patchedLines (pyStrip msg) (pySplitlines content)).getD i ""
         = beforeReturn ((pySplitlines content).getD i "")
             ++ "return " ++ "\"" ++ pyStrip msg ++ "\", 200")
  ∧ edit_only_landing_content (some "return \"Old Text\", 200") "New Text"
      = (some "return \"New Text\", 200\n", EditResult.updated)

/-! ## Helper lemmas -/

theorem getD_map_of_lt {α β : Type} (f : α → β) (L : List α) (i : Nat)
    (h : i < L.length) (d : α) (d' : β) :
    (L.map f).getD i d' = f (L.getD i d) := by
  simp [List.getD_eq_getElem?_getD, List.getElem?_map, List.getElem?_eq_getElem h]

theorem patchedLines_getD (msg : String) (L : List String) (i : Nat)
    (h : i < L.length) :
    (patchedLines msg L).getD i ""
      = if matchesPatchLine (L.getD i "") then patchLine msg (L.getD i "")
        else L.getD i "" := by
  rw [patchedLines, getD_map_of_lt _ _ i h ""]

/-! ## Claim C1 -/

/-- C1 (counterexample): the targeted patch does NOT stop at the first
qualifying line and does NOT preserve the numeric suffix: in a file
whose second line is `return "B", 404`, that later candidate line is
rewritten to `return "X", 200` as well. -/
theorem edit_first_match_cex :
    edit_only_landing_content (some "return \"A\", 200\nreturn \"B\", 404") "X"
      = (some "return \"X\", 200\nreturn \"X\", 200\n", EditResult.updated)
  ∧ (edit_only_landing_content (some "return \"A\", 200\nreturn \"B\", 404") "X").1
      ≠ some "return \"X\", 200\nreturn \"B\", 404\n" :=
  ⟨rfl, by decide⟩

/-- C1 (amended): for every target file and nonempty operator message,
the targeted patch rewrites EVERY line containing `return `, a double
quote and a comma — not only the first — keeping the text before the
line's first `return` and replacing the rest of the line with
`return "<message>", 200` (the numeric status is normalized to 200, not
preserved); all non-matching lines pass through unchanged; in
particular patching `return "Old Text", 200` with `New Text` yields
`return "New Text", 200`. -/
theorem edit_patch_amended (content msg : String) (hmsg : pyStrip msg ≠ "") :
    EditPatchSpec content msg := by
  refine ⟨?_, ?_, ?_, ?_, ?_⟩
  · intro hmatch
    simp [edit_only_landing_content, hmsg, hmatch]
  · simp [patchedLines]
  · intro i hi hm
    rw [patchedLines_getD _ _ i hi, hm]
    simp
  · intro i hi hm
    rw [patchedLines_getD _ _ i hi, hm]
    simp [patchLine]
  · rfl

/-- C1 (witness): the amended behaviour at the spec's own example. -/
theorem edit_patch_amended_witness :
    EditPatchSpec "return \"Old Text\", 200" "New Text" :=
  edit_patch_amended "return \"Old Text\", 200" "New Text" (by decide)

/-! ## Claim C5 -/

/-- C5: on a file with no line matching the patch pattern, the targeted
patch writes nothing (the file content is unchanged for any message)
and, once a nonempty message was supplied, reports that no replacement
occurred — it never appends or patches a non-matching line. -/
theorem edit_no_match (content msg : String)
    (h : (pySplitlines content).any matchesPatchLine = false) :
    (edit_only_landing_content (some content) msg).1 = some content
  ∧ (pyStrip msg ≠ "" →
      edit_only_landing_content (some content) msg
        = (some content, EditResult.noMatch)) := by
  constructor
  · by_cases hm : pyStrip msg = "" <;> simp [edit_only_landing_content, hm, h]
  · intro hm
    simp [edit_only_landing_content, hm, h]

/-- C5 (witness): a concrete file with no matching line is left
unchanged and reported as a no-match. -/
theorem edit_no_match_witness :
    (edit_only_landing_content (some "print(123)") "X").1 = some "print(123)"
  ∧ edit_only_landing_content (some "print(123)") "X"
      = (some "print(123)", EditResult.noMatch) :=
  ⟨(edit_no_match "print(123)" "X" (by decide)).1,
   (edit_no_match "print(123)" "X" (by decide)).2 (by decide)⟩

/-! ## Claim C10 -/

/-- C10: a whitespace-only replacement message makes the targeted patch
return before scanning: the target file content is unchanged and the
skip is reported. -/
theorem edit_empty_message (content msg : String) (h : pyStrip msg = "") :
    edit_only_landing_content (some content) msg
      = (some content, EditResult.emptyMessage) := by
  simp [edit_only_landing_content, h]

/-- C10 (witness): even with a matching line present, a whitespace-only
message leaves the file untouched. -/
theorem edit_empty_message_witness :
    edit_only_landing_content (some "return \"A\", 200") "  \t "
      = (some "return \"A\", 200", EditResult.emptyMessage) :=
  edit_empty_message "return \"A\", 200" "  \t " (by decide)

/-! ## Claim C2 -/

/-- C2: when a file exists at the target, full replacement moves its
exact content to the backup slot and puts the new content at the
target; a second full replacement silently overwrites that backup with
the first replacement's content — exactly one prior generation is
kept. -/
theorem replace_backup_generation (choice1 choice2 : ReplaceChoice)
    (c1 c2 old : String) (b0 : Option String)
    (h1 : contentOfChoice choice1 = some c1)
    (h2 : contentOfChoice choice2 = some c2) :
    replace_entire_file choice1 ⟨some old, b0⟩
      = (⟨some c1, some old⟩, ReplaceOutcome.replaced)
  ∧ replace_entire_file choice2
      (replace_entire_file choice1 ⟨some old, b0⟩).1
      = (⟨some c2, some c1⟩, ReplaceOutcome.replaced) := by
  have e1 : replace_entire_file choice1 ⟨some old, b0⟩
      = (⟨some c1, some old⟩, ReplaceOutcome.replaced) := by
    simp [replace_entire_file, h1]
  refine ⟨e1, ?_⟩
  rw [e1]
  simp [replace_entire_file, h2]

/-- C2 (witness): two successive replacements on a concrete state. -/
theorem replace_backup_generation_witness :
    replace_entire_file (ReplaceChoice.fromPath (some "NEW1"))
        ⟨some "OLD", some "B0"⟩
      = (⟨some "NEW1", some "OLD"⟩, ReplaceOutcome.replaced)
  ∧ replace_entire_file (ReplaceChoice.fromPath (some "NEW2"))
      (replace_entire_file (ReplaceChoice.fromPath (some "NEW1"))
        ⟨some "OLD", some "B0"⟩).1
      = (⟨some "NEW2", some "NEW1"⟩, ReplaceOutcome.replaced) :=
  replace_backup_generation _ _ _ _ _ _ rfl rfl

/-! ## Claim C6 -/

/-- C6: a source path with no file aborts only the mutation with a
not-found report: no backup is made, target and backup are unchanged,
and no process exit happens (the function returns normally). -/
theorem replace_missing_source (st : MutState) :
    replace_entire_file (ReplaceChoice.fromPath none) st
      = (st, ReplaceOutcome.notFound) := rfl

/-! ## Claim C9 -/

/-- C9: the backup path swaps the target's final extension for `.bak`
(`app.py` becomes `app.bak`, not `app.py.bak`), and the backup rename
overwrites whatever was at that sibling path. -/
theorem backup_path_extension_swap :
    backupPathName "app.py" = "app.bak"
  ∧ backupPathName "app.py" ≠ "app.py.bak"
  ∧ ∀ (old b0 c : String),
      (replace_entire_file (ReplaceChoice.fromPath (some c))
        ⟨some old, some b0⟩).1.backup = some old := by
  refine ⟨by decide, by decide, ?_⟩
  intro old b0 c
  rfl

/-! ## Claim C7 -/

/-- C7: the confirmation gate returns `true` on any input whose
stripped, lowered form is `y`/`yes`, `false` on `n`/`no`, and on any
other input consumes it and re-prompts on the rest of the stream,
assuming no default. -/
theorem ask_user_gate (s : String) (rest : List String) :
    ((pyLower (pyStrip s) = "y" ∨ pyLower (pyStrip s) = "yes") →
        ask_user (s :: rest) = some true)
  ∧ ((pyLower (pyStrip s) = "n" ∨ pyLower (pyStrip s) = "no") →
        ask_user (s :: rest) = some false)
  ∧ ((pyLower (pyStrip s) ≠ "y" ∧ pyLower (pyStrip s) ≠ "yes"
        ∧ pyLower (pyStrip s) ≠ "n" ∧ pyLower (pyStrip s) ≠ "no") →
        ask_user (s :: rest) = ask_user rest) := by
  refine ⟨?_, ?_, ?_⟩
  · rintro (h | h) <;> simp [ask_user, parseYesNo, h]
  · rintro (h | h) <;> simp [ask_user, parseYesNo, h]
  · rintro ⟨h1, h2, h3, h4⟩
    simp [ask_user, parseYesNo, h1, h2, h3, h4]

/-- C7 (witness): concrete affirmative, negative and ambiguous
inputs. -/
theorem ask_user_gate_witness :
    ask_user ["  YES "] = some true
  ∧ ask_user ["No"] = some false
  ∧ ask_user ["maybe", "y"] = ask_user ["y"] :=
  ⟨(ask_user_gate "  YES " []).1 (Or.inr (by decide)),
   (ask_user_gate "No" []).2.1 (Or.inr (by decide)),
   (ask_user_gate "maybe" ["y"]).2.2 ⟨by decide, by decide, by decide, by decide⟩⟩

/-! ## Claim C4 -/

/-- C4 (counterexample): on a zero exit status the runner returns the
captured stdout STRIPPED of surrounding whitespace, not the captured
stdout itself: stdout `"hello\n"` comes back as `"hello"`. -/
theorem run_command_cex :
    run_command 0 "hello\n" true = Except.ok (some "hello")
  ∧ run_command 0 "hello\n" true ≠ Except.ok (some "hello\n") := by
  refine ⟨rfl, ?_⟩
  intro h
  rw [(rfl : run_command 0 "hello\n" true = Except.ok (some "hello"))] at h
  injection h with h2
  injection h2 with h3
  exact absurd h3 (by decide)

/-- C4 (amended): a zero exit status yields Success carrying the
captured stdout stripped of leading/trailing whitespace; a non-zero
exit with `exit_on_fail=True` terminates the process with exit code 1;
with `exit_on_fail=False` it returns the Failed result (`None`) without
terminating. -/
theorem run_command_amended (ec : Nat) (out : String) :
    (ec = 0 → ∀ b, run_command ec out b = Except.ok (some (pyStrip out)))
  ∧ (ec ≠ 0 → run_command ec out true = Except.error 1)
  ∧ (ec ≠ 0 → run_command ec out false = Except.ok none) := by
  refine ⟨?_, ?_, ?_⟩ <;> intro h
  · intro b
    simp [run_command, h]
  · simp [run_command, h]
  · simp [run_command, h]

/-- C4 (witness): the three behaviours at concrete exit statuses. -/
theorem run_command_amended_witness :
    run_command 0 " ok \n" true = Except.ok (some "ok")
  ∧ run_command 2 "x" true = Except.error 1
  ∧ run_command 2 "x" false = Except.ok none :=
  ⟨by rw [(run_command_amended 0 " ok \n").1 rfl true]; exact rfl,
   (run_command_amended 2 "x").2.1 (by decide),
   (run_command_amended 2 "x").2.2 (by decide)⟩

/-! ## Poller and orchestrator lemmas -/

theorem runCmd_fatal_cases (env : HostEnv) (cmd : String) :
    runCmd env cmd true = Except.ok (some (pyStrip (env.stdoutOf cmd)))
  ∨ runCmd env cmd true = Except.error 1 := by
  unfold runCmd run_command
  by_cases h : env.exitStatus cmd = 0 <;> simp [h]

theorem runCmd_fatal_ok (env : HostEnv) (cmd : String)
    (h : env.exitStatus cmd = 0) :
    runCmd env cmd true = Except.ok (some (pyStrip (env.stdoutOf cmd))) := by
  unfold runCmd run_command
  simp [h]

theorem runCmd_fatal_fail (env : HostEnv) (cmd : String)
    (h : env.exitStatus cmd ≠ 0) :
    runCmd env cmd true = Except.error 1 := by
  unfold runCmd run_command
  simp [h]

theorem runCmd_soft_eq (env : HostEnv) (cmd : String) :
    runCmd env cmd false
      = Except.ok (if env.exitStatus cmd = 0
          then some (pyStrip (env.stdoutOf cmd)) else none) := by
  unfold runCmd run_command
  by_cases h : env.exitStatus cmd = 0 <;> simp [h]

theorem andThenE_ok {α β : Type} (u : α) (k : Except Nat β) :
    andThenE (Except.ok u) k = k := rfl

theorem andThenE_err {α β : Type} (c : Nat) (k : Except Nat β) :
    andThenE (Except.error c : Except Nat α) k = Except.error c := rfl

theorem waitAux_timeout (fe : Nat → Bool) (c : String) (h : ∀ t, fe t = false) :
    ∀ n elapsed, 60 - elapsed ≤ n → elapsed % 5 = 0 → elapsed ≤ 60 →
      hostnameWaitAux fe c elapsed = PollResult.timedOut 60 := by
  intro n
  induction n with
  | zero =>
      intro elapsed h1 h2 h3
      have he : elapsed = 60 := by omega
      subst he
      unfold hostnameWaitAux
      simp
  | succ n ih =>
      intro elapsed h1 h2 h3
      by_cases hlt : elapsed < 60
      · unfold hostnameWaitAux
        rw [dif_pos hlt, h elapsed]
        simp only [Bool.false_eq_true, if_false]
        exact ih (elapsed + 5) (by omega) (by omega) (by omega)
      · have he : elapsed = 60 := by omega
        subst he
        unfold hostnameWaitAux
        simp

theorem waitAux_found (fe : Nat → Bool) (c : String) :
    ∀ n elapsed, 60 - elapsed ≤ n → elapsed % 5 = 0 →
      (∃ t, elapsed ≤ t ∧ t < 60 ∧ t % 5 = 0 ∧ fe t = true) →
      ∃ e, e < 60 ∧ hostnameWaitAux fe c elapsed
          = PollResult.found (pyStrip c) e := by
  intro n
  induction n with
  | zero =>
      intro elapsed h1 h2 hex
      obtain ⟨t, ht1, ht2, _, _⟩ := hex
      omega
  | succ n ih =>
      intro elapsed h1 h2 hex
      obtain ⟨t, ht1, ht2, ht3, ht4⟩ := hex
      have hlt : elapsed < 60 := by omega
      by_cases hfe : fe elapsed = true
      · refine ⟨elapsed, hlt, ?_⟩
        unfold hostnameWaitAux
        rw [dif_pos hlt, hfe]
        simp
      · have hne : t ≠ elapsed := by
          intro hEq
          rw [hEq] at ht4
          exact hfe ht4
        obtain ⟨e, he1, he2⟩ :=
          ih (elapsed + 5) (by omega) (by omega) ⟨t, by omega, ht2, ht3, ht4⟩
        refine ⟨e, he1, ?_⟩
        unfold hostnameWaitAux
        rw [dif_pos hlt]
        simp only [hfe, Bool.false_eq_true, if_false]
        · exact he2

theorem hostnameWait_timeout (fe : Nat → Bool) (c : String)
    (h : ∀ t, fe t = false) :
    hostnameWait fe c = PollResult.timedOut 60 :=
  waitAux_timeout fe c h 60 0 (by omega) (by omega) (by omega)

theorem hostnameWait_found (fe : Nat → Bool) (c : String)
    (hex : ∃ t, t < 60 ∧ t % 5 = 0 ∧ fe t = true) :
    ∃ e, e < 60 ∧ hostnameWait fe c = PollResult.found (pyStrip c) e := by
  obtain ⟨t, h1, h2, h3⟩ := hex
  exact waitAux_found fe c 60 0 (by omega) (by omega) ⟨t, by omega, h1, h2, h3⟩

theorem enable_tor_timeout (env : HostEnv)
    (h : ∀ t, env.hostnameAppears t = false) :
    enable_tor_single_instance env = Except.error 1 := by
  unfold enable_tor_single_instance
  rw [hostnameWait_timeout env.hostnameAppears env.hostnameContent h]
  rcases runCmd_fatal_cases env "systemctl enable tor" with h1 | h1
  · rw [h1, andThenE_ok]
    rcases runCmd_fatal_cases env "systemctl restart tor" with h2 | h2
    · rw [h2, andThenE_ok, runCmd_soft_eq, andThenE_ok]
    · rw [h2, andThenE_err]
  · rw [h1, andThenE_err]

theorem enable_tor_found (env : HostEnv) (h0 : ∀ s, env.exitStatus s = 0)
    (ha : env.hostnameAppears 0 = true) :
    enable_tor_single_instance env
      = Except.ok (pyStrip env.hostnameContent) := by
  have hw : hostnameWait env.hostnameAppears env.hostnameContent
      = PollResult.found (pyStrip env.hostnameContent) 0 := by
    unfold hostnameWait hostnameWaitAux
    rw [dif_pos (by omega), ha]
    simp
  unfold enable_tor_single_instance
  rw [hw, runCmd_fatal_ok env _ (h0 _), andThenE_ok,
      runCmd_fatal_ok env _ (h0 _), andThenE_ok, runCmd_soft_eq, andThenE_ok]

theorem enable_tor_shape (env : HostEnv) :
    (∃ v, enable_tor_single_instance env = Except.ok v)
  ∨ enable_tor_single_instance env = Except.error 1 := by
  unfold enable_tor_single_instance
  rcases runCmd_fatal_cases env "systemctl enable tor" with h1 | h1
  · rw [h1, andThenE_ok]
    rcases runCmd_fatal_cases env "systemctl restart tor" with h2 | h2
    · rw [h2, andThenE_ok, runCmd_soft_eq, andThenE_ok]
      cases hw : hostnameWait env.hostnameAppears env.hostnameContent with
      | found v e => exact Or.inl ⟨v, rfl⟩
      | timedOut e => exact Or.inr rfl
    · rw [h2, andThenE_err]
      exact Or.inr rfl
  · rw [h1, andThenE_err]
    exact Or.inr rfl

theorem runSoftSeq_ok (env : HostEnv) : ∀ cs, runSoftSeq env cs = Except.ok () := by
  intro cs
  induction cs with
  | nil => rfl
  | cons c cs ih =>
      show andThenE (runCmd env c false) (runSoftSeq env cs) = Except.ok ()
      rw [runCmd_soft_eq, andThenE_ok, ih]

theorem runFatalSeq_shape (env : HostEnv) :
    ∀ cs, runFatalSeq env cs = Except.ok () ∨ runFatalSeq env cs = Except.error 1 := by
  intro cs
  induction cs with
  | nil => exact Or.inl rfl
  | cons c cs ih =>
      rcases runCmd_fatal_cases env c with h | h
      · rcases ih with h2 | h2
        · left
          show andThenE (runCmd env c true) (runFatalSeq env cs) = Except.ok ()
          rw [h, andThenE_ok, h2]
        · right
          show andThenE (runCmd env c true) (runFatalSeq env cs) = Except.error 1
          rw [h, andThenE_ok, h2]
      · right
        show andThenE (runCmd env c true) (runFatalSeq env cs) = Except.error 1
        rw [h, andThenE_err]

theorem runFatalSeq_ok (env : HostEnv) (h0 : ∀ s, env.exitStatus s = 0) :
    ∀ cs, runFatalSeq env cs = Except.ok () := by
  intro cs
  induction cs with
  | nil => rfl
  | cons c cs ih =>
      show andThenE (runCmd env c true) (runFatalSeq env cs) = Except.ok ()
      rw [runCmd_fatal_ok env c (h0 c), andThenE_ok, ih]

theorem purge_ok (env : HostEnv) : purge_old_tor env = Except.ok () :=
  runSoftSeq_ok env _

theorem fix_time_ok (env : HostEnv) : fix_time env = Except.ok () :=
  runSoftSeq_ok env _

theorem selinux_ok (env : HostEnv) :
    disable_selinux_if_present env = Except.ok () := by
  unfold disable_selinux_if_present
  split
  · exact runSoftSeq_ok env _
  · rfl

theorem torrc_ok (env : HostEnv) : write_minimal_torrc env = Except.ok () :=
  runSoftSeq_ok env _

theorem install_shape (env : HostEnv) :
    install_tor_and_security env = Except.ok ()
  ∨ install_tor_and_security env = Except.error 1 :=
  runFatalSeq_shape env _

theorem install_ok (env : HostEnv) (h0 : ∀ s, env.exitStatus s = 0) :
    install_tor_and_security env = Except.ok () :=
  runFatalSeq_ok env h0 _

theorem install_fail (env : HostEnv)
    (h : env.exitStatus installPackagesCmd ≠ 0) :
    install_tor_and_security env = Except.error 1 := by
  show andThenE (runCmd env installPackagesCmd true) (runFatalSeq env []) = _
  rw [runCmd_fatal_fail env _ h, andThenE_err]

theorem secure_shape (env : HostEnv) :
    secure_server env = Except.ok () ∨ secure_server env = Except.error 1 :=
  runFatalSeq_shape env _

theorem secure_ok (env : HostEnv) (h0 : ∀ s, env.exitStatus s = 0) :
    secure_server env = Except.ok () :=
  runFatalSeq_ok env h0 _

theorem gate_ok {b : Bool} {x : Except Nat Unit} (hx : x = Except.ok ()) :
    (if b then x else Except.ok ()) = Except.ok () := by
  cases b <;> simp [hx]

theorem gate_shape {b : Bool} {x : Except Nat Unit}
    (hx : x = Except.ok () ∨ x = Except.error 1) :
    (if b then x else Except.ok ()) = Except.ok ()
  ∨ (if b then x else Except.ok ()) = Except.error 1 := by
  cases b
  · left
    simp
  · simpa using hx

theorem mainWizard_true (env : HostEnv) (a : MainAnswers) :
    mainWizard env true a
      = andThenE (if a.installPkgs then install_tor_and_security env
                  else Except.ok ())
        (match (if a.startTor then enable_tor_single_instance env
                else Except.ok "UNAVAILABLE") with
         | Except.error c => Except.error c
         | Except.ok onion =>
             andThenE (if a.secure then secure_server env else Except.ok ())
               (Except.ok onion)) := by
  unfold mainWizard
  rw [if_neg (by simp)]
  rw [gate_ok (purge_ok env), andThenE_ok, gate_ok (fix_time_ok env), andThenE_ok,
      gate_ok (selinux_ok env), andThenE_ok, gate_ok (torrc_ok env), andThenE_ok]

theorem mainWizard_true_shape (env : HostEnv) (a : MainAnswers) :
    mainWizard env true a = Except.error 1
  ∨ ∃ v, mainWizard env true a = Except.ok v := by
  rw [mainWizard_true]
  rcases gate_shape (install_shape env) (b := a.installPkgs) with hg | hg
  · rw [hg, andThenE_ok]
    have henable : (∃ v, (if a.startTor then enable_tor_single_instance env
          else Except.ok "UNAVAILABLE") = Except.ok v)
        ∨ (if a.startTor then enable_tor_single_instance env
          else Except.ok "UNAVAILABLE") = Except.error 1 := by
      cases hst : a.startTor
      · exact Or.inl ⟨"UNAVAILABLE", by simp⟩
      · simpa using enable_tor_shape env
    rcases henable with ⟨v, hv⟩ | hv
    · rw [hv]
      rcases gate_shape (secure_shape env) (b := a.secure) with hs | hs
      · rw [hs]
        exact Or.inr ⟨v, rfl⟩
      · rw [hs]
        exact Or.inl rfl
    · rw [hv]
      exact Or.inl rfl
  · rw [hg, andThenE_err]
    exact Or.inl rfl

/-! ## Claim C3 -/

/-- C3: if the hostname file exists at some poll check before the
60-second limit, the wait loop returns the file's stripped content
(found strictly before 60 seconds); if the file never appears, the loop
reports absence exactly when 60 seconds have elapsed — never earlier —
and `enable_tor_single_instance` then terminates the process with exit
code 1. -/
theorem resource_poller_spec (env : HostEnv) :
    ((∃ t, t < 60 ∧ t % 5 = 0 ∧ env.hostnameAppears t = true) →
        ∃ e, e < 60 ∧ hostnameWait env.hostnameAppears env.hostnameContent
            = PollResult.found (pyStrip env.hostnameContent) e)
  ∧ ((∀ t, env.hostnameAppears t = false) →
        hostnameWait env.hostnameAppears env.hostnameContent
          = PollResult.timedOut 60)
  ∧ ((∀ t, env.hostnameAppears t = false) →
        enable_tor_single_instance env = Except.error 1) :=
  ⟨fun hex => hostnameWait_found _ _ hex,
   fun h => hostnameWait_timeout _ _ h,
   fun h => enable_tor_timeout env h⟩

/-- C3 (witness): a file present from the start is found before the
limit; a file that never appears times out at exactly 60 seconds and is
fatal. -/
theorem resource_poller_spec_witness :
    (∃ e, e < 60 ∧ hostnameWait envFileNow.hostnameAppears envFileNow.hostnameContent
        = PollResult.found (pyStrip envFileNow.hostnameContent) e)
  ∧ hostnameWait envNoFile.hostnameAppears envNoFile.hostnameContent
      = PollResult.timedOut 60
  ∧ enable_tor_single_instance envNoFile = Except.error 1 :=
  ⟨(resource_poller_spec envFileNow).1 ⟨0, by decide, by decide, rfl⟩,
   (resource_poller_spec envNoFile).2.1 (fun _ => rfl),
   (resource_poller_spec envNoFile).2.2 (fun _ => rfl)⟩

/-! ## Claim C8 -/

/-- C8: the orchestrator exits 1 when not run as root; exits 0 with the
`UNAVAILABLE` placeholder address when every optional step is declined;
every early process exit carries a non-zero code; a failing fatal
command (the install step) exits 1; an accepted Tor start step whose
hostname file never appears exits 1 (poll timeout); and under an
all-successful host a run completes with exit code 0 and the discovered
address (or the placeholder when the Tor step was declined). -/
theorem main_exit_codes (env : HostEnv) (a : MainAnswers) :
    mainWizard env false a = Except.error 1
  ∧ mainWizard env true allDeclined = Except.ok "UNAVAILABLE"
  ∧ (∀ r c, mainWizard env r a = Except.error c → c ≠ 0)
  ∧ (a.installPkgs = true → env.exitStatus installPackagesCmd ≠ 0 →
       mainWizard env true a = Except.error 1)
  ∧ (a.startTor = true → (∀ t, env.hostnameAppears t = false) →
       mainWizard env true a = Except.error 1)
  ∧ ((∀ s, env.exitStatus s = 0) → env.hostnameAppears 0 = true →
       mainWizard env true a
         = Except.ok (if a.startTor then pyStrip env.hostnameContent
                      else "UNAVAILABLE")) := by
  refine ⟨rfl, rfl, ?_, ?_, ?_, ?_⟩
  · intro r c hc
    cases r
    · rw [(rfl : mainWizard env false a = Except.error 1)] at hc
      injection hc with h
      omega
    · rcases mainWizard_true_shape env a with h | ⟨v, h⟩ <;> rw [h] at hc
      · injection hc with h2
        omega
      · exact Except.noConfusion hc
  · intro hi hfail
    rw [mainWizard_true, hi, if_pos rfl, install_fail env hfail, andThenE_err]
  · intro hst hnever
    rw [mainWizard_true]
    rcases gate_shape (install_shape env) (b := a.installPkgs) with hg | hg
    · rw [hg, andThenE_ok, hst, if_pos rfl, enable_tor_timeout env hnever]
    · rw [hg, andThenE_err]
  · intro h0 ha
    rw [mainWizard_true, gate_ok (install_ok env h0), andThenE_ok]
    have he : (if a.startTor then enable_tor_single_instance env
          else Except.ok "UNAVAILABLE")
        = Except.ok (if a.startTor then pyStrip env.hostnameContent
                     else "UNAVAILABLE") := by
      cases a.startTor
      · simp
      · simpa using enable_tor_found env h0 ha
    rw [he]
    show andThenE (if a.secure then secure_server env else Except.ok ()) _ = _
    rw [gate_ok (secure_ok env h0), andThenE_ok]

/-- C8 (witness): concrete runs — privilege failure, all-declined
completion with the placeholder, non-zero early exit code, fatal
install failure, poll timeout, and a successful discovery run. -/
theorem main_exit_codes_witness :
    mainWizard envNoFile false answersTorOnly = Except.error 1
  ∧ mainWizard envNoFile true allDeclined = Except.ok "UNAVAILABLE"
  ∧ (1 : Nat) ≠ 0
  ∧ mainWizard envAllFail true answersInstallOnly = Except.error 1
  ∧ mainWizard envNoFile true answersTorOnly = Except.error 1
  ∧ mainWizard envFileNow true answersTorOnly = Except.ok "abcdef.onion" :=
  ⟨(main_exit_codes envNoFile answersTorOnly).1,
   (main_exit_codes envNoFile answersTorOnly).2.1,
   (main_exit_codes envNoFile answersTorOnly).2.2.1 false 1
     ((main_exit_codes envNoFile answersTorOnly).1),
   (main_exit_codes envAllFail answersInstallOnly).2.2.2.1 rfl (by decide),
   (main_exit_codes envNoFile answersTorOnly).2.2.2.2.1 rfl (fun _ => rfl),
   by rw [(main_exit_codes envFileNow answersTorOnly).2.2.2.2.2
        (fun _ => rfl) rfl]
      exact rfl⟩
